import Mathlib

/-!
Verification of the DID manager core (services/did-manager) against its
specification.  The Go source is shallowly embedded: database rows become
Lean structures, repositories become pure functions on lists of rows
(SQL `UPDATE ... WHERE id = $1` becomes a `map` over the rows), fallible
external calls (database writes, blockchain RPC, queue publish) are
parametrised by their outcome, and wall-clock times are `Nat` parameters.
-/

/-- A row of the `dids` table (`internal/domain/did.go`, `DID` struct).
UUIDs are modelled as `Nat`, timestamps as `Nat`. -/
structure DIDRecord where
  id : Nat
  userID : Nat
  did : String
  userHash : String
  publicKey : String
  status : String
  createdAt : Nat
  updatedAt : Nat
  blockchainTx : String
deriving DecidableEq, Repr

/-- A row of the `blockchain_jobs` table (`internal/domain/queue.go`,
`BlockchainJob` struct).  `processedAt` is nullable. -/
structure BlockchainJob where
  id : Nat
  jobType : String
  didID : Nat
  userHash : String
  did : String
  status : String
  retryCount : Nat
  maxRetries : Nat
  error : String
  createdAt : Nat
  updatedAt : Nat
  processedAt : Option Nat
deriving DecidableEq, Repr

/-! ### Job Ledger repository (`internal/repository`, BlockchainJobRepository) -/

/-- The `WHERE status IN ('pending','retrying') AND retry_count < max_retries`
filter of `GetPendingJobs`. -/
def isPendingEligible (j : BlockchainJob) : Bool :=
  (j.status == "pending" || j.status == "retrying") && j.retryCount < j.maxRetries

/-- The `ORDER BY created_at ASC` relation of `GetPendingJobs`. -/
def createdLE (a b : BlockchainJob) : Prop := a.createdAt ≤ b.createdAt

instance : DecidableRel createdLE := fun a b => Nat.decLe a.createdAt b.createdAt

instance : IsTotal BlockchainJob createdLE := ⟨fun a b => Nat.le_total a.createdAt b.createdAt⟩

instance : IsTrans BlockchainJob createdLE := ⟨fun _ _ _ h h' => Nat.le_trans h h'⟩

/-- `GetPendingJobs` (BlockchainJobRepository): select rows with
`status IN ('pending','retrying') AND retry_count < max_retries`,
`ORDER BY created_at ASC`, `LIMIT limit`. -/
def getPendingJobs (store : List BlockchainJob) (limit : Nat) : List BlockchainJob :=
  (List.insertionSort createdLE (store.filter isPendingEligible)).take limit

/-- `UpdateStatus` (BlockchainJobRepository): `SET status, error, updated_at
WHERE id`. -/
def jobUpdateStatus (store : List BlockchainJob) (id : Nat) (status errMsg : String)
    (now : Nat) : List BlockchainJob :=
  store.map fun j =>
    if j.id == id then { j with status := status, error := errMsg, updatedAt := now } else j

/-- `MarkCompleted` (BlockchainJobRepository): `SET status = 'completed',
processed_at = NOW(), updated_at = NOW() WHERE id`. -/
def jobMarkCompleted (store : List BlockchainJob) (id : Nat) (now : Nat) :
    List BlockchainJob :=
  store.map fun j =>
    if j.id == id then
      { j with status := "completed", processedAt := some now, updatedAt := now }
    else j

/-- `IncrementRetryCount` (BlockchainJobRepository): `SET retry_count =
retry_count + 1, status = 'retrying', updated_at = NOW() WHERE id`.
Note the SQL does not touch the `error` column. -/
def jobIncrementRetryCount (store : List BlockchainJob) (id : Nat) (now : Nat) :
    List BlockchainJob :=
  store.map fun j =>
    if j.id == id then
      { j with retryCount := j.retryCount + 1, status := "retrying", updatedAt := now }
    else j

/-! ### Identity Store repository (DIDRepository) -/

/-- `GetByDID` (DIDRepository): `SELECT ... WHERE did = $1`, `NotFound` when
no row matches (modelled as `none`). -/
def getByDID (store : List DIDRecord) (d : String) : Option DIDRecord :=
  store.find? fun r => r.did == d

/-- `UpdateStatus` (DIDRepository): `SET status, blockchain_tx, updated_at
WHERE id`. -/
def didUpdateStatus (store : List DIDRecord) (id : Nat) (status tx : String)
    (now : Nat) : List DIDRecord :=
  store.map fun r =>
    if r.id == id then { r with status := status, blockchainTx := tx, updatedAt := now } else r

/-- `Update` (DIDRepository): replace every column of the row `WHERE id`. -/
def didUpdate (store : List DIDRecord) (rec : DIDRecord) : List DIDRecord :=
  store.map fun r => if r.id == rec.id then rec else r

/-- C5: `getPendingJobs` returns only jobs with status `pending` or `retrying`
and `retryCount < maxRetries`, ordered oldest-first by creation time, and at
most `limit` of them. -/
theorem getPendingJobs_spec (store : List BlockchainJob) (limit : Nat) :
    (∀ j ∈ getPendingJobs store limit,
        (j.status = "pending" ∨ j.status = "retrying") ∧ j.retryCount < j.maxRetries) ∧
      List.Sorted createdLE (getPendingJobs store limit) ∧
      (getPendingJobs store limit).length ≤ limit := by
  refine ⟨?_, ?_, ?_⟩
  · intro j hj
    have hmem : j ∈ store.filter isPendingEligible := by
      have h1 : j ∈ List.insertionSort createdLE (store.filter isPendingEligible) :=
        List.Sublist.mem hj (List.take_sublist _ _)
      exact (List.mem_insertionSort createdLE).mp h1
    have helig : isPendingEligible j = true := (List.mem_filter.mp hmem).2
    unfold isPendingEligible at helig
    simp only [Bool.and_eq_true, Bool.or_eq_true, beq_iff_eq, decide_eq_true_eq] at helig
    exact ⟨helig.1, helig.2⟩
  · exact List.Pairwise.sublist (List.take_sublist _ _)
      (List.sorted_insertionSort createdLE _)
  · exact List.length_take_le _ _

/-- Witness for C5 on a concrete store: a job returned by `getPendingJobs`
satisfies the eligibility property. -/
theorem getPendingJobs_spec_witness :
    (⟨1, "register_did", 10, "h", "did:x", "pending", 0, 3, "", 5, 5, none⟩ : BlockchainJob) ∈
        getPendingJobs
          [⟨2, "register_did", 11, "h2", "did:y", "failed", 3, 3, "e", 1, 1, none⟩,
           ⟨1, "register_did", 10, "h", "did:x", "pending", 0, 3, "", 5, 5, none⟩] 10 ∧
      ((("pending" : String) = "pending" ∨ ("pending" : String) = "retrying") ∧ 0 < 3) := by
  refine ⟨by decide, ?_⟩
  exact (getPendingJobs_spec
    [⟨2, "register_did", 11, "h2", "did:y", "failed", 3, 3, "e", 1, 1, none⟩,
     ⟨1, "register_did", 10, "h", "did:x", "pending", 0, 3, "", 5, 5, none⟩] 10).1
    ⟨1, "register_did", 10, "h", "did:x", "pending", 0, 3, "", 5, 5, none⟩ (by decide)

/-! ### Identity Generator (`pkg/did/generator.go`, `GenerateDID`)

`GenerateDID` draws an Ed25519 key pair from the system RNG and computes
`userHash = SHA256(name ++ ":" ++ email ++ ":" ++ timestamp)`.  Both crypto
primitives are external; the embedding takes their outputs — the 32 digest
bytes, the 32 public-key bytes and the 64 private-key bytes — as parameters
and models the string composition that follows them. -/

/-- Lowercase hexadecimal digit, as produced by Go's `hex.EncodeToString`. -/
def hexDigit (n : Nat) : Char :=
  if n < 10 then Char.ofNat (48 + n) else Char.ofNat (87 + n)

/-- The two hex characters of one byte, high nibble first. -/
def hexByteChars (b : Nat) : List Char := [hexDigit (b / 16 % 16), hexDigit (b % 16)]

/-- Characters of `hex.EncodeToString` applied to a byte slice. -/
def hexEncodeChars (bs : List Nat) : List Char := bs.flatMap hexByteChars

/-- Go's `hex.EncodeToString`: lowercase hex of a byte slice. -/
def hexEncode (bs : List Nat) : String := ⟨hexEncodeChars bs⟩

/-- Go string slicing `s[:n]` on an ASCII string (hex strings are ASCII, so
byte slicing and character slicing agree). -/
def strTake (s : String) (n : Nat) : String := ⟨s.data.take n⟩

/-- Result triple of `GenerateDID`: the DID string, the hex user hash and the
hex private key. -/
structure GenResult where
  did : String
  userHash : String
  privateKeyHex : String
deriving DecidableEq, Repr

/-- `GenerateDID` (pkg/did/generator.go) after the key pair and digest are
drawn: `userHashHex := hex(hashBytes)`;
`did := "did:example:user:" ++ userHashHex[:16] ++ ":" ++ hex(publicKey[:16])`;
private key stored hex-encoded. -/
def generateDID (hashBytes publicKey privateKey : List Nat) : GenResult :=
  let userHashHex := hexEncode hashBytes
  { did := "did:example:user:" ++ strTake userHashHex 16 ++ ":" ++
      hexEncode (publicKey.take 16)
  , userHash := userHashHex
  , privateKeyHex := hexEncode privateKey }

theorem hexEncodeChars_take (k : Nat) (bs : List Nat) :
    hexEncodeChars (bs.take k) = (hexEncodeChars bs).take (2 * k) := by
  induction bs generalizing k with
  | nil => simp [hexEncodeChars]
  | cons b bs ih =>
    cases k with
    | zero => simp [hexEncodeChars]
    | succ k =>
      simp only [List.take_succ_cons, hexEncodeChars, List.flatMap_cons] at *
      rw [ih k]
      have h2 : 2 * (k + 1) = (hexByteChars b).length + 2 * k := by
        simp [hexByteChars]; omega
      rw [h2, List.take_append]

theorem hexEncodeChars_length (bs : List Nat) :
    (hexEncodeChars bs).length = 2 * bs.length := by
  induction bs with
  | nil => simp [hexEncodeChars]
  | cons b bs ih =>
    simp only [hexEncodeChars, List.flatMap_cons, List.length_append] at *
    simp [hexByteChars, ih]; omega

/-- C2 counterexample: the claim that the public-key segment of the DID is the
first 16 hex characters of the encoded public key (a 16-character segment) is
false — `GenerateDID` encodes the first 16 bytes of the key, a 32-character
segment. -/
theorem generateDID_claim_counterexample :
    (generateDID (List.replicate 32 0) (List.range 32) (List.range 64)).did ≠
      "did:example:user:" ++ strTake (hexEncode (List.replicate 32 0)) 16 ++ ":" ++
        strTake (hexEncode (List.range 32)) 16 := by decide

/-- C2 (amended): the DID produced by `generateDID` is exactly
`did:example:user:` followed by the first 16 hex characters of the returned
user hash, a `:` separator, and the hex encoding of the first 16 bytes of the
public key, which is the 32-character (not 16) prefix of the hex encoding of
the full public key. -/
theorem generateDID_format (hb pk sk : List Nat) (h : 16 ≤ pk.length) :
    (generateDID hb pk sk).did =
        "did:example:user:" ++ strTake (generateDID hb pk sk).userHash 16 ++ ":" ++
          strTake (hexEncode pk) 32 ∧
      (strTake (hexEncode pk) 32).length = 32 := by
  constructor
  · show "did:example:user:" ++ strTake (hexEncode hb) 16 ++ ":" ++
        hexEncode (pk.take 16) =
      "did:example:user:" ++ strTake (hexEncode hb) 16 ++ ":" ++ strTake (hexEncode pk) 32
    have : hexEncode (pk.take 16) = strTake (hexEncode pk) 32 := by
      show (⟨hexEncodeChars (pk.take 16)⟩ : String) = ⟨(hexEncodeChars pk).take 32⟩
      rw [hexEncodeChars_take 16 pk]
    rw [this]
  · show ((hexEncodeChars pk).take 32).length = 32
    rw [List.length_take, hexEncodeChars_length]
    omega

/-- Witness for C2 (amended) at a concrete 32-byte public key. -/
theorem generateDID_format_witness :
    (generateDID (List.replicate 32 0) (List.range 32) (List.range 64)).did =
        "did:example:user:" ++
          strTake (generateDID (List.replicate 32 0) (List.range 32) (List.range 64)).userHash
            16 ++ ":" ++ strTake (hexEncode (List.range 32)) 32 ∧
      (strTake (hexEncode (List.range 32)) 32).length = 32 :=
  generateDID_format (List.replicate 32 0) (List.range 32) (List.range 64) (by decide)

/-! ### Identity Service facade: `CreateDID`
(`internal/services/did_service.go`, lines 43-106)

Fallible collaborators — `didRepo.Create`, `queueRepo.Create` and
`queue.PublishJob` — are parametrised by their outcome.  A failed
`queueRepo.Create` or `queue.PublishJob` is only logged; the method still
returns a success response. -/

/-- `domain.DIDResponse`. -/
structure DIDResponse where
  didRecord : DIDRecord
  userHash : String
  status : String
  message : String
deriving DecidableEq, Repr

/-- Outcome of `CreateDID`: the `(response, error)` pair plus the resulting
stores and whether a queue message was durably published. -/
structure CreateOutcome where
  resp : Option DIDResponse
  err : Option String
  didStore : List DIDRecord
  jobStore : List BlockchainJob
  published : Bool
deriving DecidableEq, Repr

/-- `CreateDID` (DIDService).  `gen` is the outcome of `GenerateDID`
(`none` = generation error); `didId`/`jobId` are the two fresh UUIDs; `now`
is the creation time; `didCreateOk`, `jobCreateOk`, `publishOk` are the
outcomes of the DID insert, the job insert and the queue publish. -/
def createDID (didStore : List DIDRecord) (jobStore : List BlockchainJob)
    (userID : Nat) (gen : Option GenResult) (didId jobId : Nat) (now : Nat)
    (didCreateOk jobCreateOk publishOk : Bool) : CreateOutcome :=
  match gen with
  | none => ⟨none, some "failed to generate DID", didStore, jobStore, false⟩
  | some g =>
    let didRecord : DIDRecord :=
      { id := didId, userID := userID, did := g.did, userHash := g.userHash
      , publicKey := g.privateKeyHex, status := "pending"
      , createdAt := now, updatedAt := now, blockchainTx := "" }
    if didCreateOk = false then
      ⟨none, some "failed to create DID record", didStore, jobStore, false⟩
    else
      let blockchainJob : BlockchainJob :=
        { id := jobId, jobType := "register_did", didID := didId
        , userHash := g.userHash, did := g.did, status := "pending"
        , retryCount := 0, maxRetries := 3, error := ""
        , createdAt := now, updatedAt := now, processedAt := none }
      let jobStore' := if jobCreateOk then jobStore ++ [blockchainJob] else jobStore
      ⟨some ⟨didRecord, g.userHash, "pending",
          "DID created successfully and queued for blockchain registration"⟩,
        none, didStore ++ [didRecord], jobStore', publishOk⟩

/-- C3 counterexample: a `create` call can return success while creating no
Job Ledger row at all — here the job insert fails (it is only logged), the
response is still a success, and the job store holds no `register` row for
the new DID. -/
theorem createDID_claim_counterexample :
    (createDID [] [] 1 (some ⟨"did:example:user:aa:bb", "aahash", "kk"⟩) 10 11 5
        true false true).resp.isSome = true ∧
      ((createDID [] [] 1 (some ⟨"did:example:user:aa:bb", "aahash", "kk"⟩) 10 11 5
          true false true).jobStore.filter fun j => j.didID == 10).length = 0 := by
  decide

/-- C3 (amended): every successful `createDID` persists an Identity Record
with status `pending` and empty `chainTx`; and provided the Job Ledger insert
succeeds, exactly one job row is appended for it, of type `register_did`,
with status `pending`, `retryCount = 0` and `maxRetries = 3`. -/
theorem createDID_success_spec (ds : List DIDRecord) (js : List BlockchainJob)
    (u : Nat) (g : GenResult) (di ji now : Nat) (jobOk pubOk : Bool) :
    ∃ resp, (createDID ds js u (some g) di ji now true jobOk pubOk).resp = some resp ∧
      resp.didRecord.status = "pending" ∧ resp.didRecord.blockchainTx = "" ∧
      (createDID ds js u (some g) di ji now true jobOk pubOk).didStore =
        ds ++ [resp.didRecord] ∧
      (jobOk = true →
        (createDID ds js u (some g) di ji now true jobOk pubOk).jobStore =
          js ++ [{ id := ji, jobType := "register_did", didID := di
                 , userHash := g.userHash, did := g.did, status := "pending"
                 , retryCount := 0, maxRetries := 3, error := ""
                 , createdAt := now, updatedAt := now, processedAt := none }]) := by
  refine ⟨⟨{ id := di, userID := u, did := g.did, userHash := g.userHash
           , publicKey := g.privateKeyHex, status := "pending"
           , createdAt := now, updatedAt := now, blockchainTx := "" },
           g.userHash, "pending",
           "DID created successfully and queued for blockchain registration"⟩,
    ?_, rfl, rfl, ?_, ?_⟩
  · simp [createDID]
  · simp [createDID]
  · intro hj
    simp [createDID, hj]

/-- Witness for C3 (amended) at a concrete successful create. -/
theorem createDID_success_spec_witness :
    ∃ resp, (createDID [] [] 1 (some ⟨"did:example:user:aa:bb", "aahash", "kk"⟩)
        10 11 5 true true true).resp = some resp ∧
      resp.didRecord.status = "pending" ∧ resp.didRecord.blockchainTx = "" ∧
      (createDID [] [] 1 (some ⟨"did:example:user:aa:bb", "aahash", "kk"⟩)
          10 11 5 true true true).didStore = [] ++ [resp.didRecord] ∧
      (true = true →
        (createDID [] [] 1 (some ⟨"did:example:user:aa:bb", "aahash", "kk"⟩)
            10 11 5 true true true).jobStore =
          [] ++ [{ id := 11, jobType := "register_did", didID := 10
                 , userHash := "aahash", did := "did:example:user:aa:bb"
                 , status := "pending", retryCount := 0, maxRetries := 3, error := ""
                 , createdAt := 5, updatedAt := 5, processedAt := none }]) :=
  createDID_success_spec [] [] 1 ⟨"did:example:user:aa:bb", "aahash", "kk"⟩ 10 11 5 true true

/-- C9: once DID generation and the Identity Store insert succeed, `createDID`
returns a success response even when both the Job Ledger insert and the queue
publish fail; in that case no job row is appended and nothing is published, so
a success response does not guarantee a Job Ledger row or a queue message. -/
theorem createDID_success_despite_job_and_publish_failure (ds : List DIDRecord)
    (js : List BlockchainJob) (u : Nat) (g : GenResult) (di ji now : Nat) :
    (createDID ds js u (some g) di ji now true false false).resp.isSome = true ∧
      (createDID ds js u (some g) di ji now true false false).err = none ∧
      (createDID ds js u (some g) di ji now true false false).jobStore = js ∧
      (createDID ds js u (some g) di ji now true false false).published = false := by
  refine ⟨?_, ?_, ?_, ?_⟩ <;> simp [createDID]

/-! ### Identity Service facade: `VerifyDID`
(`internal/services/did_service.go`, lines 109-182)

The method reads `didRepo` (possibly nil), calls the read-only chain
verification, and may self-heal the local record.  `chain` models the
`blockchain.VerifyDID` outcome (`none` = the RPC returned an error), and
`updOk` the outcome of the logged-only `didRepo.Update` call. -/

/-- `domain.DIDVerificationRequest`. -/
structure VerificationRequest where
  did : String
  userHash : String
deriving DecidableEq, Repr

/-- `domain.DIDVerificationResponse`. -/
structure VerificationResponse where
  isValid : Bool
  did : String
  userHash : String
  status : String
  message : String
  blockchainTx : String
deriving DecidableEq, Repr

/-- The state a `DIDService` value closes over: the Identity Store (`none`
models a nil `didRepo`) and the Job Ledger. -/
structure ServiceState where
  didStore : Option (List DIDRecord)
  jobStore : List BlockchainJob
deriving DecidableEq, Repr

/-- Outcome of `VerifyDID`: the resulting service state, the
`(response, error)` pair, and whether `blockchain.VerifyDID` was invoked. -/
structure VerifyOutcome where
  state : ServiceState
  resp : VerificationResponse
  err : Option String
  chainCalled : Bool
deriving DecidableEq, Repr

/-- `VerifyDID` (DIDService).  Mirrors the Go method branch for branch: nil
repository, local lookup miss, hash mismatch, chain-error fallback to the
local status, and the self-healing update when the chain reports active but
the stored status is not yet `active`. -/
def verifyDID (st : ServiceState) (chain : Option Bool) (updOk : Bool)
    (req : VerificationRequest) (now : Nat) : VerifyOutcome :=
  match st.didStore with
  | none =>
    ⟨st, ⟨false, req.did, req.userHash, "not_found", "Service not properly initialized", ""⟩,
      none, false⟩
  | some store =>
    match getByDID store req.did with
    | none =>
      ⟨st, ⟨false, req.did, req.userHash, "not_found",
          "DID not found in local database: DID not found", ""⟩, none, false⟩
    | some rec =>
      if req.userHash ≠ "" ∧ rec.userHash ≠ req.userHash then
        ⟨st, ⟨false, req.did, req.userHash, "hash_mismatch", "User hash does not match", ""⟩,
          none, false⟩
      else
        match chain with
        | none =>
          ⟨st, ⟨rec.status == "active", req.did, req.userHash, rec.status,
              "Blockchain verification failed, using local status", rec.blockchainTx⟩,
            none, true⟩
        | some isValid =>
          if isValid ∧ rec.status ≠ "active" then
            let rec2 : DIDRecord := { rec with status := "active", updatedAt := now }
            let store' := if updOk then didUpdate store rec2 else store
            ⟨⟨some store', st.jobStore⟩,
              ⟨isValid, req.did, req.userHash, rec2.status, "DID verification completed",
                rec2.blockchainTx⟩, none, true⟩
          else
            ⟨st, ⟨isValid, req.did, req.userHash, rec.status, "DID verification completed",
                rec.blockchainTx⟩, none, true⟩

/-- C4: `verifyDID` reports `is_valid = true` only if the repository is
initialized and holds a record for the DID, the supplied hash is empty or
matches the stored one, and either the chain reported the DID active or the
chain was unavailable and the locally stored status is `active`. -/
theorem verifyDID_valid_only_if (st : ServiceState) (chain : Option Bool) (updOk : Bool)
    (req : VerificationRequest) (now : Nat)
    (h : (verifyDID st chain updOk req now).resp.isValid = true) :
    ∃ store rec, st.didStore = some store ∧ getByDID store req.did = some rec ∧
      (req.userHash = "" ∨ rec.userHash = req.userHash) ∧
      (chain = some true ∨ (chain = none ∧ rec.status = "active")) := by
  unfold verifyDID at h
  split at h
  next hst => simp at h
  next store hst =>
    split at h
    next hr => simp at h
    next rec hr =>
      split at h
      next hmm => simp at h
      next hmm =>
        push_neg at hmm
        have hmatch : req.userHash = "" ∨ rec.userHash = req.userHash := by
          by_cases he : req.userHash = ""
          · exact Or.inl he
          · exact Or.inr (hmm he)
        split at h
        next =>
          simp only [beq_iff_eq] at h
          exact ⟨store, rec, hst, hr, hmatch, Or.inr ⟨rfl, h⟩⟩
        next b =>
          split at h
          next hb =>
            simp only at h
            exact ⟨store, rec, hst, hr, hmatch, Or.inl (by rw [h])⟩
          next hb =>
            simp only at h
            exact ⟨store, rec, hst, hr, hmatch, Or.inl (by rw [h])⟩

/-- Witness for C4: a concrete verification that returns `is_valid = true`
and satisfies the three conditions. -/
theorem verifyDID_valid_only_if_witness :
    ∃ store rec,
      (⟨some [⟨10, 1, "did:x", "h", "k", "active", 0, 0, "tx"⟩], []⟩ : ServiceState).didStore =
          some store ∧
        getByDID store "did:x" = some rec ∧
        (("h" : String) = "" ∨ rec.userHash = "h") ∧
        ((some true : Option Bool) = some true ∨
          ((some true : Option Bool) = none ∧ rec.status = "active")) := by
  have h := verifyDID_valid_only_if
    ⟨some [⟨10, 1, "did:x", "h", "k", "active", 0, 0, "tx"⟩], []⟩ (some true) true
    ⟨"did:x", "h"⟩ 7 (by decide)
  exact h

/-- C7: when a local record exists for the DID but a non-empty supplied hash
differs from the stored one, `verifyDID` returns `is_valid = false` with
status `hash_mismatch`, leaves the service state (Identity Store and Job
Ledger) unchanged, and never invokes the chain client. -/
theorem verifyDID_hash_mismatch (st : ServiceState) (chain : Option Bool) (updOk : Bool)
    (req : VerificationRequest) (now : Nat) (store : List DIDRecord) (rec : DIDRecord)
    (hst : st.didStore = some store) (hr : getByDID store req.did = some rec)
    (hne : req.userHash ≠ "") (hm : rec.userHash ≠ req.userHash) :
    verifyDID st chain updOk req now =
      ⟨st, ⟨false, req.did, req.userHash, "hash_mismatch", "User hash does not match", ""⟩,
        none, false⟩ := by
  unfold verifyDID
  split
  next hst' => rw [hst] at hst'; cases hst'
  next store' hst' =>
    rw [hst] at hst'
    injection hst' with hss
    subst hss
    split
    next hr' => rw [hr] at hr'; cases hr'
    next rec' hr' =>
      rw [hr] at hr'
      injection hr' with hrr
      subst hrr
      rw [if_pos ⟨hne, hm⟩]

/-- Witness for C7 at a concrete mismatching verification. -/
theorem verifyDID_hash_mismatch_witness :
    verifyDID ⟨some [⟨10, 1, "did:x", "h", "k", "pending", 0, 0, ""⟩], []⟩ (some true) true
        ⟨"did:x", "g"⟩ 7 =
      ⟨⟨some [⟨10, 1, "did:x", "h", "k", "pending", 0, 0, ""⟩], []⟩,
        ⟨false, "did:x", "g", "hash_mismatch", "User hash does not match", ""⟩,
        none, false⟩ :=
  verifyDID_hash_mismatch ⟨some [⟨10, 1, "did:x", "h", "k", "pending", 0, 0, ""⟩], []⟩
    (some true) true ⟨"did:x", "g"⟩ 7 [⟨10, 1, "did:x", "h", "k", "pending", 0, 0, ""⟩]
    ⟨10, 1, "did:x", "h", "k", "pending", 0, 0, ""⟩ rfl (by decide) (by decide) (by decide)

/-- C10: `verifyDID` returns a nil Go error on every input — each failure mode
(nil repository, lookup miss, hash mismatch, unavailable chain) is encoded in
the response, never in the error return. -/
theorem verifyDID_never_errors (st : ServiceState) (chain : Option Bool) (updOk : Bool)
    (req : VerificationRequest) (now : Nat) :
    (verifyDID st chain updOk req now).err = none := by
  unfold verifyDID
  split
  · rfl
  · split
    · rfl
    · split
      · rfl
      · split
        · rfl
        · split
          · rfl
          · rfl

/-! ### Reconciliation worker
(`internal/services/did_service.go`, `processJob` lines 217-252 and
`ProcessBlockchainQueue` lines 195-214)

Job processing is embedded as an effect trace: each repository write and
chain call the Go code performs, in program order.  A trace is then applied
to the stores with the repository operations defined above. -/

/-- One observable effect of the worker: a Job Ledger write, an Identity
Store write, or a Ledger Client invocation. -/
inductive Effect where
  | jobStatus (id : Nat) (status errMsg : String)
  | chainRegister (userHash did : String)
  | chainUpdate (userHash did : String)
  | didStatus (id : Nat) (status tx : String)
  | completedMark (id : Nat)
  | retryIncrement (id : Nat)
deriving DecidableEq, Repr

/-- Apply one effect to the pair (Identity Store, Job Ledger). -/
def applyEffect (now : Nat) (st : List DIDRecord × List BlockchainJob) (e : Effect) :
    List DIDRecord × List BlockchainJob :=
  match e with
  | .jobStatus id s m => (st.1, jobUpdateStatus st.2 id s m now)
  | .chainRegister _ _ => st
  | .chainUpdate _ _ => st
  | .didStatus id s tx => (didUpdateStatus st.1 id s tx now, st.2)
  | .completedMark id => (st.1, jobMarkCompleted st.2 id now)
  | .retryIncrement id => (st.1, jobIncrementRetryCount st.2 id now)

/-- Apply a trace of effects in order. -/
def applyTrace (now : Nat) (st : List DIDRecord × List BlockchainJob)
    (es : List Effect) : List DIDRecord × List BlockchainJob :=
  es.foldl (applyEffect now) st

/-- Result of `processJob`: the effects performed, in order, and the Go error
return. -/
structure ProcessResult where
  trace : List Effect
  err : Option String
deriving DecidableEq, Repr

/-- `processJob` (DIDService): mark the job `processing`, dispatch on
`jobType` to `RegisterDID`/`UpdateDID`, and on success update the Identity
Record to `active` with the returned transaction hash, then mark the job
completed.  `updOk`, `didUpdOk` and `markOk` are the outcomes of the three
repository writes; `chain` is the Ledger Client outcome. -/
def processJob (job : BlockchainJob) (updOk : Bool) (chain : Except String String)
    (didUpdOk markOk : Bool) : ProcessResult :=
  if updOk = false then ⟨[], some "failed to update job status"⟩
  else
    let dispatched : Option Effect :=
      if job.jobType = "register_did" then some (.chainRegister job.userHash job.did)
      else if job.jobType = "update_did" then some (.chainUpdate job.userHash job.did)
      else none
    match dispatched with
    | none =>
      ⟨[.jobStatus job.id "processing" ""], some ("unknown job type: " ++ job.jobType)⟩
    | some chainEff =>
      match chain with
      | .error m =>
        ⟨[.jobStatus job.id "processing" "", chainEff],
          some ("blockchain operation failed: " ++ m)⟩
      | .ok tx =>
        if didUpdOk = false then
          ⟨[.jobStatus job.id "processing" "", chainEff], some "failed to update DID status"⟩
        else if markOk = false then
          ⟨[.jobStatus job.id "processing" "", chainEff, .didStatus job.didID "active" tx],
            some "failed to mark job completed"⟩
        else
          ⟨[.jobStatus job.id "processing" "", chainEff, .didStatus job.didID "active" tx,
              .completedMark job.id], none⟩

/-- Per-job outcomes of the worker's collaborators, indexed by job id. -/
structure WorkerOracle where
  updOk : Nat → Bool
  chain : Nat → Except String String
  didUpdOk : Nat → Bool
  markOk : Nat → Bool
  failUpdOk : Nat → Bool
deriving Inhabited

/-- One iteration of the loop in `ProcessBlockchainQueue`: run `processJob`
and, when it returns an error, set the job status directly to `failed` with
the error text. -/
def processOne (now : Nat) (o : WorkerOracle)
    (acc : (List DIDRecord × List BlockchainJob) × List Effect)
    (job : BlockchainJob) : (List DIDRecord × List BlockchainJob) × List Effect :=
  let r := processJob job (o.updOk job.id) (o.chain job.id) (o.didUpdOk job.id)
    (o.markOk job.id)
  let st1 := applyTrace now acc.1 r.trace
  match r.err with
  | none => (st1, acc.2 ++ r.trace)
  | some m =>
    if o.failUpdOk job.id then
      (applyEffect now st1 (.jobStatus job.id "failed" m),
        acc.2 ++ r.trace ++ [.jobStatus job.id "failed" m])
    else (st1, acc.2 ++ r.trace)

/-- `ProcessBlockchainQueue` (DIDService): fetch up to 10 pending jobs and
process them sequentially. -/
def processBlockchainQueue (now : Nat) (o : WorkerOracle)
    (st : List DIDRecord × List BlockchainJob) :
    (List DIDRecord × List BlockchainJob) × List Effect :=
  (getPendingJobs st.2 10).foldl (processOne now o) (st, [])

theorem didUpdateStatus_mem (ds : List DIDRecord) (id : Nat) (s tx : String) (now : Nat) :
    ∀ r ∈ didUpdateStatus ds id s tx now, r.id = id → r.status = s ∧ r.blockchainTx = tx := by
  intro r hr hid
  unfold didUpdateStatus at hr
  obtain ⟨r0, _, rfl⟩ := List.mem_map.mp hr
  by_cases h : (r0.id == id) = true
  · simp [h]
  · rw [if_neg h] at hid
    exact absurd (by simp [hid]) h

theorem jobMarkCompleted_mem (js : List BlockchainJob) (id now : Nat) :
    ∀ j ∈ jobMarkCompleted js id now, j.id = id →
      j.status = "completed" ∧ j.processedAt = some now := by
  intro j hj hid
  unfold jobMarkCompleted at hj
  obtain ⟨j0, _, rfl⟩ := List.mem_map.mp hj
  by_cases h : (j0.id == id) = true
  · simp [h]
  · rw [if_neg h] at hid
    exact absurd (by simp [hid]) h

/-- C6: a job the worker processes successfully goes through these steps in
order — mark `processing`, invoke the Ledger Client operation selected by
`jobType` (`register_did` → register, `update_did` → update), update the
referenced Identity Record to `active` with the returned transaction hash,
and only then mark the job completed; applying the trace leaves the job row
`completed` with a non-null `processedAt` and the DID row `active`. -/
theorem processJob_success_order (job : BlockchainJob) (updOk : Bool)
    (chain : Except String String) (didUpdOk markOk : Bool)
    (ds : List DIDRecord) (js : List BlockchainJob) (now : Nat)
    (h : (processJob job updOk chain didUpdOk markOk).err = none) :
    ∃ tx, chain = .ok tx ∧
      ((job.jobType = "register_did" ∧
          (processJob job updOk chain didUpdOk markOk).trace =
            [.jobStatus job.id "processing" "", .chainRegister job.userHash job.did,
              .didStatus job.didID "active" tx, .completedMark job.id]) ∨
        (job.jobType = "update_did" ∧
          (processJob job updOk chain didUpdOk markOk).trace =
            [.jobStatus job.id "processing" "", .chainUpdate job.userHash job.did,
              .didStatus job.didID "active" tx, .completedMark job.id])) ∧
      (∀ r ∈ (applyTrace now (ds, js) (processJob job updOk chain didUpdOk markOk).trace).1,
          r.id = job.didID → r.status = "active" ∧ r.blockchainTx = tx) ∧
      (∀ j2 ∈ (applyTrace now (ds, js) (processJob job updOk chain didUpdOk markOk).trace).2,
          j2.id = job.id → j2.status = "completed" ∧ j2.processedAt = some now) := by
  by_cases hu : updOk = false
  · exfalso
    unfold processJob at h
    rw [if_pos hu] at h
    simp at h
  by_cases hreg : job.jobType = "register_did"
  · cases chain with
    | error m =>
      exfalso
      unfold processJob at h
      rw [if_neg hu, if_pos hreg] at h
      dsimp only at h
      simp at h
    | ok tx =>
      by_cases hd : didUpdOk = false
      · exfalso
        unfold processJob at h
        rw [if_neg hu, if_pos hreg] at h
        dsimp only at h
        rw [if_pos hd] at h
        simp at h
      by_cases hm : markOk = false
      · exfalso
        unfold processJob at h
        rw [if_neg hu, if_pos hreg] at h
        dsimp only at h
        rw [if_neg hd, if_pos hm] at h
        simp at h
      have hpj : processJob job updOk (Except.ok tx) didUpdOk markOk =
          ⟨[.jobStatus job.id "processing" "", .chainRegister job.userHash job.did,
              .didStatus job.didID "active" tx, .completedMark job.id], none⟩ := by
        unfold processJob
        rw [if_neg hu, if_pos hreg]
        dsimp only
        rw [if_neg hd, if_neg hm]
      refine ⟨tx, rfl, Or.inl ⟨hreg, by rw [hpj]⟩, ?_, ?_⟩
      · rw [hpj]
        intro r hr hid
        simp only [applyTrace, List.foldl, applyEffect] at hr
        exact didUpdateStatus_mem _ _ _ _ _ r hr hid
      · rw [hpj]
        intro j2 hj2 hid
        simp only [applyTrace, List.foldl, applyEffect] at hj2
        exact jobMarkCompleted_mem _ _ _ j2 hj2 hid
  · by_cases hup : job.jobType = "update_did"
    · cases chain with
      | error m =>
        exfalso
        unfold processJob at h
        rw [if_neg hu, if_neg hreg, if_pos hup] at h
        dsimp only at h
        simp at h
      | ok tx =>
        by_cases hd : didUpdOk = false
        · exfalso
          unfold processJob at h
          rw [if_neg hu, if_neg hreg, if_pos hup] at h
          dsimp only at h
          rw [if_pos hd] at h
          simp at h
        by_cases hm : markOk = false
        · exfalso
          unfold processJob at h
          rw [if_neg hu, if_neg hreg, if_pos hup] at h
          dsimp only at h
          rw [if_neg hd, if_pos hm] at h
          simp at h
        have hpj : processJob job updOk (Except.ok tx) didUpdOk markOk =
            ⟨[.jobStatus job.id "processing" "", .chainUpdate job.userHash job.did,
                .didStatus job.didID "active" tx, .completedMark job.id], none⟩ := by
          unfold processJob
          rw [if_neg hu, if_neg hreg, if_pos hup]
          dsimp only
          rw [if_neg hd, if_neg hm]
        refine ⟨tx, rfl, Or.inr ⟨hup, by rw [hpj]⟩, ?_, ?_⟩
        · rw [hpj]
          intro r hr hid
          simp only [applyTrace, List.foldl, applyEffect] at hr
          exact didUpdateStatus_mem _ _ _ _ _ r hr hid
        · rw [hpj]
          intro j2 hj2 hid
          simp only [applyTrace, List.foldl, applyEffect] at hj2
          exact jobMarkCompleted_mem _ _ _ j2 hj2 hid
    · exfalso
      unfold processJob at h
      rw [if_neg hu, if_neg hreg, if_neg hup] at h
      dsimp only at h
      simp at h

/-- Witness for C6 at a concrete successfully processed register job. -/
theorem processJob_success_order_witness :
    ∃ tx, (Except.ok "0xabc" : Except String String) = .ok tx ∧
      (((⟨1, "register_did", 10, "h", "did:x", "pending", 0, 3, "", 0, 0, none⟩ :
              BlockchainJob).jobType = "register_did" ∧
          (processJob ⟨1, "register_did", 10, "h", "did:x", "pending", 0, 3, "", 0, 0, none⟩
              true (.ok "0xabc") true true).trace =
            [.jobStatus 1 "processing" "", .chainRegister "h" "did:x",
              .didStatus 10 "active" tx, .completedMark 1]) ∨
        ((⟨1, "register_did", 10, "h", "did:x", "pending", 0, 3, "", 0, 0, none⟩ :
              BlockchainJob).jobType = "update_did" ∧
          (processJob ⟨1, "register_did", 10, "h", "did:x", "pending", 0, 3, "", 0, 0, none⟩
              true (.ok "0xabc") true true).trace =
            [.jobStatus 1 "processing" "", .chainUpdate "h" "did:x",
              .didStatus 10 "active" tx, .completedMark 1])) ∧
      (∀ r ∈ (applyTrace 9 ([⟨10, 1, "did:x", "h", "k", "pending", 0, 0, ""⟩],
            [⟨1, "register_did", 10, "h", "did:x", "pending", 0, 3, "", 0, 0, none⟩])
            (processJob ⟨1, "register_did", 10, "h", "did:x", "pending", 0, 3, "", 0, 0, none⟩
              true (.ok "0xabc") true true).trace).1,
          r.id = 10 → r.status = "active" ∧ r.blockchainTx = tx) ∧
      (∀ j2 ∈ (applyTrace 9 ([⟨10, 1, "did:x", "h", "k", "pending", 0, 0, ""⟩],
            [⟨1, "register_did", 10, "h", "did:x", "pending", 0, 3, "", 0, 0, none⟩])
            (processJob ⟨1, "register_did", 10, "h", "did:x", "pending", 0, 3, "", 0, 0, none⟩
              true (.ok "0xabc") true true).trace).2,
          j2.id = 1 → j2.status = "completed" ∧ j2.processedAt = some 9) :=
  processJob_success_order
    ⟨1, "register_did", 10, "h", "did:x", "pending", 0, 3, "", 0, 0, none⟩
    true (.ok "0xabc") true true
    [⟨10, 1, "did:x", "h", "k", "pending", 0, 0, ""⟩]
    [⟨1, "register_did", 10, "h", "did:x", "pending", 0, 3, "", 0, 0, none⟩] 9 (by decide)

/-- C1: evaluation of `ProcessBlockchainQueue` at a single pending register
job whose Ledger Client call fails with a recoverable error (a reverted
transaction).  The worker sets the job status directly to `failed` with the
wrapped error text while `retryCount` is still `0` (< `maxRetries = 3`), and
no `IncrementRetryCount` call (`retryIncrement` effect) ever occurs —
contradicting the specified recoverable-failure handling. -/
theorem processBlockchainQueue_reverted_direct_fail :
    (processBlockchainQueue 9
          ⟨fun _ => true, fun _ => .error "failed to send transaction: transaction failed",
            fun _ => true, fun _ => true, fun _ => true⟩
          ([⟨10, 1, "did:x", "h", "k", "pending", 0, 0, ""⟩],
            [⟨1, "register_did", 10, "h", "did:x", "pending", 0, 3, "", 0, 0, none⟩])).1.2 =
        [⟨1, "register_did", 10, "h", "did:x", "failed", 0, 3,
          "blockchain operation failed: failed to send transaction: transaction failed",
          0, 9, none⟩] ∧
      (processBlockchainQueue 9
          ⟨fun _ => true, fun _ => .error "failed to send transaction: transaction failed",
            fun _ => true, fun _ => true, fun _ => true⟩
          ([⟨10, 1, "did:x", "h", "k", "pending", 0, 0, ""⟩],
            [⟨1, "register_did", 10, "h", "did:x", "pending", 0, 3, "", 0, 0, none⟩])).2 =
        [.jobStatus 1 "processing" "", .chainRegister "h" "did:x",
          .jobStatus 1 "failed"
            "blockchain operation failed: failed to send transaction: transaction failed"] ∧
      ((processBlockchainQueue 9
          ⟨fun _ => true, fun _ => .error "failed to send transaction: transaction failed",
            fun _ => true, fun _ => true, fun _ => true⟩
          ([⟨10, 1, "did:x", "h", "k", "pending", 0, 0, ""⟩],
            [⟨1, "register_did", 10, "h", "did:x", "pending", 0, 3, "", 0, 0, none⟩])).2.all
        fun e => match e with
          | .retryIncrement _ => false
          | _ => true) = true := by
  decide

/-! ### Ledger Client nonce assignment
(`pkg/blockchain/ethereum.go`, `sendTransaction`, lines 198-252)

`sendTransaction` first reads the signing account's pending nonce from the
node (`PendingNonceAt`), then builds, signs and broadcasts a transaction
carrying that nonce.  The `EthereumClient` struct holds no mutex, channel or
submission queue (its fields are client, privateKey, address, contract,
chainID, gasLimit, gasPrice), so nothing prevents two goroutines from
interleaving the nonce read and the broadcast.  The model runs two concurrent
`sendTransaction` calls as a small-step system; the schedule picks which call
advances next. -/

/-- State of two in-flight `sendTransaction` calls against one node:
`pendingNonce` is what `PendingNonceAt` returns, `broadcasts` records each
broadcast transaction as (caller, assigned nonce), and each caller has a
program counter (0 = before the nonce read, 1 = nonce read into its local,
2 = done). -/
structure NonceRaceState where
  pendingNonce : Nat
  broadcasts : List (Nat × Nat)
  pc0 : Nat
  local0 : Nat
  pc1 : Nat
  local1 : Nat
deriving DecidableEq, Repr

/-- Advance one caller of `sendTransaction` by one step: the nonce read
(`PendingNonceAt`), then the broadcast (`SendTransaction`), after which the
node's pending nonce accounts for the new transaction. -/
def nonceStep (s : NonceRaceState) (who : Bool) : NonceRaceState :=
  if who = false then
    if s.pc0 = 0 then { s with local0 := s.pendingNonce, pc0 := 1 }
    else if s.pc0 = 1 then
      { s with broadcasts := s.broadcasts ++ [(0, s.local0)],
               pendingNonce := max s.pendingNonce (s.local0 + 1), pc0 := 2 }
    else s
  else
    if s.pc1 = 0 then { s with local1 := s.pendingNonce, pc1 := 1 }
    else if s.pc1 = 1 then
      { s with broadcasts := s.broadcasts ++ [(1, s.local1)],
               pendingNonce := max s.pendingNonce (s.local1 + 1), pc1 := 2 }
    else s

/-- Run a schedule of interleaved steps. -/
def nonceRun (s : NonceRaceState) (sched : List Bool) : NonceRaceState :=
  sched.foldl nonceStep s

/-- Two fresh `sendTransaction` calls against a node whose pending nonce is
`n`. -/
def initNonceRace (n : Nat) : NonceRaceState := ⟨n, [], 0, 0, 0, 0⟩

/-- C8: nonce assignment in `sendTransaction` is not serialized.  Under the
interleaving in which both calls read the pending nonce before either
broadcasts — which nothing in `EthereumClient` forbids — both concurrently
built transactions are assigned the same nonce (here both get 5), whereas a
serialized execution of the same two calls assigns distinct nonces. -/
theorem sendTransaction_nonce_race :
    (nonceRun (initNonceRace 5) [false, true, false, true]).broadcasts = [(0, 5), (1, 5)] ∧
      (nonceRun (initNonceRace 5) [false, false, true, true]).broadcasts = [(0, 5), (1, 6)] := by
  decide
